import Mathlib

/-!
# gost-predict: the prediction engine of `main.go`

A shallow embedding of `encodeUrl`, `getObservations` and `createPredict`.

* Strings are Lean strings; `strings.Replace` with a one-character pattern is
  a per-character substitution.
* The remote source is a function from the position of a request in the run
  and the requested URL to what the HTTP client gets back (`Net`), so it may
  answer the same URL differently over time. A response body is represented
  by what `json.Unmarshal` makes of it.
* The functions of Go's standard library that `createPredict` calls
  (`strconv.ParseInt`, `time.Parse`, `Time.Format`, `strconv.ParseFloat`,
  `http.NewRequest`) are the fields of `Lib`. The general theorems hold for
  every `Lib`; `refLib` is a concrete instance used at concrete inputs.
* `float64` is modelled in exact arithmetic (`F64`): a finite value is a
  rational, `none` stands for the non-finite values (an infinity or NaN).
* Pagination recursion takes a fuel argument; `none` means the fuel ran out.
-/

namespace GostPredict

/-! ## Data model -/

/-- The fields of `Observation` that the service selects and reads
(`$select=result,phenomenonTime`). `Result` is an `interface{}` in the source;
here it is the text that `fmt.Sprintf("%v", ·)` prints for it, the only way
the source looks at it. -/
structure Observation where
  PhenomenonTime : String
  Result : String
  deriving DecidableEq, Repr, Inhabited

/-- Decoded page of observations: `SensorThingsResponseObservations` with the
embedded `SensorThingsResponseBase`. -/
structure SensorThingsResponseObservations where
  Count : Int
  NextLink : String
  Observations : List Observation
  deriving DecidableEq, Repr, Inhabited

/-- What `json.Unmarshal` makes of a response body: an error, or a page. -/
inductive Body where
  | malformed (err : String)
  | json (page : SensorThingsResponseObservations)
  deriving DecidableEq, Repr

/-- What `client.Do` returns for a request: an error (transport failure), or a
response with its HTTP status code and body. -/
inductive Reply where
  | failure (err : String)
  | response (status : Nat) (body : Body)
  deriving DecidableEq, Repr

/-- The remote source: `net n url` is the reply to a GET of `url` issued
after `n` earlier requests of the same run. A stateless source ignores `n`. -/
abbrev Net := Nat → String → Reply

/-- How a Go call ends: a returned value (`err == nil`), a returned error, or
a run-time panic. -/
inductive Outcome (α : Type) where
  | ok (value : α)
  | error (msg : String)
  | panic (msg : String)
  deriving DecidableEq, Repr

/-- A finished call: the URLs of the GET requests it issued, in order, and
how it ended. -/
structure Ran (α : Type) where
  requests : List String
  result : Outcome α
  deriving DecidableEq, Repr

/-! ## `encodeUrl` -/

/-- The call `strings.Replace(s, old, new, -1)` for a one-character `old`:
every occurrence of `old` is replaced by `new`. -/
def replaceAll (s : String) (old : Char) (new : String) : String :=
  ⟨s.data.flatMap fun c => if c = old then new.data else [c]⟩

/-- Source: `encodeUrl`. -/
def encodeUrl (url : String) : String :=
  let n := url
  let n := replaceAll n ' ' "%20"
  let n := replaceAll n (Char.ofNat 39) "%27"
  n

/-- The substitution the specification describes for one character. -/
def encodeChar (c : Char) : String :=
  if c = ' ' then "%20" else if c = Char.ofNat 39 then "%27" else String.singleton c

/-! ## The standard library, as far as the service calls it -/

/-- Result of `strconv.ParseFloat(s, 64)`. -/
inductive ParseFloatResult where
  | ok (value : Option ℚ)
  | errSyntax
  | errRange
  deriving DecidableEq

/-- Exact-arithmetic `float64`: `some q` is the finite value `q`, `none` a
non-finite value. -/
abbrev F64 := Option ℚ

/-- The float `ParseFloat` returns next to its error: `0` on a syntax error,
an infinity on a range error. The source discards the error and uses this. -/
def ParseFloatResult.value : ParseFloatResult → F64
  | .ok v => v
  | .errSyntax => some 0
  | .errRange => none

/-- Instants are nanoseconds since the Unix epoch. -/
abbrev Time := Int

/-- A `time.Duration`: an `int64` count of nanoseconds. -/
abbrev Duration := Int

/-- The library functions `getObservations` and `createPredict` call. -/
structure Lib where
  /-- First result of `strconv.ParseInt(s, 10, 64)`. -/
  parseInt : String → Int
  /-- The call `time.Parse("2006-01-02T15:04:05.000Z", s)`; `none` when it
  returns an error. -/
  parseTime : String → Option Time
  /-- The call `t.Format(time.RFC3339Nano)` on a UTC time. -/
  formatTime : Time → String
  /-- The call `strconv.ParseFloat(s, 64)`. -/
  parseFloat : String → ParseFloatResult
  /-- Whether `http.NewRequest("GET", url, nil)` returns a request. -/
  newRequestOk : String → Bool

/-! ## `getObservations` -/

/-- Source: `getObservations`, run with `fuel` for the recursion after `sent`
earlier requests. The error of `http.NewRequest` is overwritten unread, so a
URL it rejects leaves `request` nil and `request.Header.Add` panics. The
status code of the response is never read. -/
def getObservations (lib : Lib) (net : Net) :
    Nat → Nat → String → List Observation → Option (Ran (List Observation))
  | 0, _, _, _ => none
  | fuel + 1, sent, url, observations =>
    if lib.newRequestOk (encodeUrl url) = false then
      some ⟨[], .panic "invalid memory address or nil pointer dereference"⟩
    else
      match net sent (encodeUrl url) with
      | .failure err => some ⟨[encodeUrl url], .error err⟩
      | .response _ (.malformed err) => some ⟨[encodeUrl url], .error err⟩
      | .response _ (.json obs) =>
        let observations := observations ++ obs.Observations
        if obs.NextLink.length ≠ 0 then
          match getObservations lib net fuel (sent + 1) obs.NextLink observations with
          | none => none
          | some r =>
            match r.result with
            | .ok observations => some ⟨encodeUrl url :: r.requests, .ok observations⟩
            | .error err => some ⟨encodeUrl url :: r.requests, .error err⟩
            | .panic msg => some ⟨encodeUrl url :: r.requests, .panic msg⟩
        else
          some ⟨[encodeUrl url], .ok observations⟩

/-- The page a reply decodes to, whatever its status code. -/
def Reply.page? : Reply → Option SensorThingsResponseObservations
  | .response _ (.json page) => some page
  | _ => none

/-- The error `getObservations` returns for a reply that is a transport
failure or has an undecodable body. -/
def Reply.fetchError? : Reply → Option String
  | .failure err => some err
  | .response _ (.malformed err) => some err
  | _ => none

/-- The remote source serves the chain of pages `pages` to the requests
numbered `sent`, `sent + 1`, ... that start at `url`: every page is fetched
and decoded, each page but the last carries a non-empty `NextLink` leading to
the next, and the last carries none. -/
def ServesChain (lib : Lib) (net : Net) :
    Nat → String → List SensorThingsResponseObservations → Prop
  | _, _, [] => False
  | sent, url, [p] =>
    lib.newRequestOk (encodeUrl url) = true ∧ (net sent (encodeUrl url)).page? = some p ∧
      p.NextLink = ""
  | sent, url, p :: q :: rest =>
    lib.newRequestOk (encodeUrl url) = true ∧ (net sent (encodeUrl url)).page? = some p ∧
      p.NextLink ≠ "" ∧ ServesChain lib net (sent + 1) p.NextLink (q :: rest)

/-- The remote source serves the pages `pages` to the requests numbered
`sent`, `sent + 1`, ... that start at `url`, each with a non-empty `NextLink`,
and the request after them fails with `err` (transport failure or undecodable
body). -/
def FailsAfter (lib : Lib) (net : Net) (err : String) :
    Nat → String → List SensorThingsResponseObservations → Prop
  | sent, url, [] =>
    lib.newRequestOk (encodeUrl url) = true ∧
      (net sent (encodeUrl url)).fetchError? = some err
  | sent, url, p :: rest =>
    lib.newRequestOk (encodeUrl url) = true ∧ (net sent (encodeUrl url)).page? = some p ∧
      p.NextLink ≠ "" ∧ FailsAfter lib net err (sent + 1) p.NextLink rest

/-! ## Times, durations and exact-arithmetic floats -/

/-- The zero `time.Time` (January 1, year 1, 00:00:00 UTC), which
`time.Parse` returns next to an error. -/
def zeroTime : Time := -62135596800000000000

/-- Smallest `time.Duration`. -/
def minDuration : Duration := -9223372036854775808

/-- Largest `time.Duration`. -/
def maxDuration : Duration := 9223372036854775807

/-- One minute, `time.Minute`, in nanoseconds. -/
def Minute : Duration := 60000000000

/-- Two's-complement wrap of an integer into `int64`. -/
def toInt64 (z : Int) : Int := (z + 9223372036854775808) % 18446744073709551616 - 9223372036854775808

/-- The method `t.Sub(u)`: the difference, saturated to the range of
`Duration`. -/
def timeSub (t u : Time) : Duration :=
  if t - u < minDuration then minDuration
  else if maxDuration < t - u then maxDuration
  else t - u

/-- The method `d.Minutes()`: whole minutes plus the remaining nanoseconds
over `60 * 1e9`, truncating division as in Go. -/
def minutes (d : Duration) : ℚ :=
  ((d.tdiv Minute : Int) : ℚ) + ((d.tmod Minute : Int) : ℚ) / (60 * 1000000000)

/-- Float addition. -/
def fadd (a b : F64) : F64 :=
  match a, b with
  | some x, some y => some (x + y)
  | _, _ => none

/-- Float subtraction. -/
def fsub (a b : F64) : F64 :=
  match a, b with
  | some x, some y => some (x - y)
  | _, _ => none

/-- Float division by a finite divisor: dividing by zero gives a non-finite
value. -/
def fdiv (a : F64) (d : ℚ) : F64 :=
  match a with
  | some x => if d = 0 then none else some (x / d)
  | none => none

/-- Float multiplication of a finite factor with a float. -/
def fmul (m : ℚ) (a : F64) : F64 :=
  match a with
  | some x => some (m * x)
  | none => none

/-! ## `createPredict` -/

/-- Source: `PredictionResponse`. -/
structure PredictionResponse where
  Rate : F64
  LastWeek : F64
  Prediction : F64
  deriving DecidableEq

/-- The three readings of `time.Now().UTC()` that one run of `createPredict`
takes, in program order: for the window start, for the synthetic observation,
and for the horizon. -/
structure Clock where
  now1 : Time
  now2 : Time
  now3 : Time

/-- The variables the rate loop of `createPredict` updates. -/
structure RateLoop where
  rates : List F64
  rateTotal : F64
  lastKnown : F64

/-- The float a result is coerced to:
`strconv.ParseFloat(fmt.Sprintf("%v", o.Result), 64)` with the error dropped. -/
def resultValue (lib : Lib) (o : Observation) : F64 :=
  (lib.parseFloat o.Result).value

/-- The time a phenomenon time is read as: `time.Parse(layout, ·)` with the
error dropped, so the zero time when it does not parse. -/
def phenomenonTime (lib : Lib) (o : Observation) : Time :=
  (lib.parseTime o.PhenomenonTime).getD zeroTime

/-- One iteration of the loop of `createPredict`, for index `i`. -/
def rateStep (lib : Lib) (obs : List Observation) (st : RateLoop) (i : Nat) : RateLoop :=
  let t1 := phenomenonTime lib (obs.getD i default)
  let t2 := phenomenonTime lib (obs.getD (i + 1) default)
  let delta := timeSub t1 t2
  let r1 := resultValue lib (obs.getD i default)
  let r2 := resultValue lib (obs.getD (i + 1) default)
  let lastKnown := if i = 0 then r1 else st.lastKnown
  let diff := fsub r1 r2
  let ratePerMin := fdiv diff (minutes delta)
  { rates := st.rates ++ [ratePerMin]
    rateTotal := fadd st.rateTotal ratePerMin
    lastKnown := lastKnown }

/-- The synthetic observation `obNow` of `createPredict`, built from the
first fetched observation `o`, which is `obs[0]`. -/
def obNow (lib : Lib) (clock : Clock) (o : Observation) : Observation :=
  { PhenomenonTime := lib.formatTime clock.now2, Result := o.Result }

/-- Lines 137-171 of `createPredict`: what is done with the fetched
observations. Indexing `obs[0]` panics on an empty sequence. -/
def extrapolate (lib : Lib) (clock : Clock) (toPredictTime : Time) :
    List Observation → Outcome PredictionResponse
  | [] => .panic "index out of range [0] with length 0"
  | o :: rest =>
    let obs := obNow lib clock o :: o :: rest
    let st := (List.range (obs.length - 1)).foldl (rateStep lib obs) ⟨[], some 0, some 0⟩
    let medianRate := fdiv st.rateTotal st.rates.length
    let predictAndNowMinutesDelta := minutes (timeSub toPredictTime clock.now3)
    .ok { Rate := medianRate
          LastWeek := some 0
          Prediction := fadd st.lastKnown (fmul predictAndNowMinutesDelta medianRate) }

/-- The filtered query URL of `createPredict`. -/
def filteredUrl (lib : Lib) (clock : Clock) (host datastream span : String) : String :=
  let i := lib.parseInt span
  let thenT : Time := clock.now1 + toInt64 (-(toInt64 (Minute * i)))
  host ++ "/v1.0/Datastreams(" ++ datastream ++ ")/Observations?$filter=phenomenonTime gt '"
    ++ lib.formatTime thenT ++ "'&$select=result,phenomenonTime"

/-- The fallback query URL of `createPredict`. -/
def fallbackUrl (host datastream : String) : String :=
  host ++ "/v1.0/Datastreams(" ++ datastream ++ ")/Observations?$top=2&$select=result,phenomenonTime"

/-- Lines 121-135 of `createPredict`: the filtered fetch and, when it returns
fewer than two observations, the fallback fetch. -/
def fetchWindow (lib : Lib) (net : Net) (clock : Clock) (fuel : Nat)
    (host datastream span : String) : Option (Ran (List Observation)) :=
  match getObservations lib net fuel 0 (filteredUrl lib clock host datastream span) [] with
  | none => none
  | some r1 =>
    match r1.result with
    | .error err => some ⟨r1.requests, .error err⟩
    | .panic msg => some ⟨r1.requests, .panic msg⟩
    | .ok obs =>
      if obs.length < 2 then
        match getObservations lib net fuel r1.requests.length (fallbackUrl host datastream) []
        with
        | none => none
        | some r2 => some ⟨r1.requests ++ r2.requests, r2.result⟩
      else
        some ⟨r1.requests, .ok obs⟩

/-- Source: `createPredict`. -/
def createPredict (lib : Lib) (net : Net) (clock : Clock) (fuel : Nat)
    (host datastream predictTime span : String) : Option (Ran PredictionResponse) :=
  match lib.parseTime predictTime with
  | none => some ⟨[], .error ("Unable to parse predictTime: " ++ predictTime)⟩
  | some toPredictTime =>
    match fetchWindow lib net clock fuel host datastream span with
    | none => none
    | some r =>
      match r.result with
      | .error err => some ⟨r.requests, .error err⟩
      | .panic msg => some ⟨r.requests, .panic msg⟩
      | .ok obs => some ⟨r.requests, extrapolate lib clock toPredictTime obs⟩

/-! ## A reference instance of the library

Concrete library functions for running the model on concrete inputs. They
follow the documented behaviour of the Go functions on the canonical inputs:
decimal numerals, timestamps written exactly in the layout, times of years
0-9999, and plain `http://host/path?query` URLs. -/

/-- Value of a decimal digit. -/
def digit? (c : Char) : Option Nat :=
  if 48 ≤ c.toNat ∧ c.toNat ≤ 57 then some (c.toNat - 48) else none

/-- Value of a run of decimal digits read after the value `acc`; `none` when
a character is not a digit. -/
def digitsFrom? (acc : Nat) : List Char → Option Nat
  | [] => some acc
  | c :: cs =>
    match digit? c with
    | none => none
    | some d => digitsFrom? (acc * 10 + d) cs

/-- Value of a non-empty run of decimal digits. -/
def number? (cs : List Char) : Option Nat :=
  if cs = [] then none else digitsFrom? 0 cs

/-- Reference `strconv.ParseInt(s, 10, 64)`: `0` on a syntax error, the
nearest `int64` when out of range. -/
def refParseInt (s : String) : Int :=
  let body (neg : Bool) (cs : List Char) : Int :=
    match number? cs with
    | none => 0
    | some n =>
      if neg then -((min n 9223372036854775808 : Nat) : Int)
      else ((min n 9223372036854775807 : Nat) : Int)
  match s.data with
  | [] => 0
  | c :: cs =>
    if c = '+' then body false cs
    else if c = '-' then body true cs
    else body false (c :: cs)

/-- Whether a year is a leap year of the proleptic Gregorian calendar. -/
def isLeap (year : Nat) : Bool :=
  year % 4 = 0 ∧ (year % 100 ≠ 0 ∨ year % 400 = 0)

/-- Number of days of a month. -/
def daysIn (month year : Nat) : Nat :=
  if month = 2 then (if isLeap year then 29 else 28)
  else if month = 4 ∨ month = 6 ∨ month = 9 ∨ month = 11 then 30
  else 31

/-- Days from 1970-01-01 to the given civil date. -/
def daysFromCivil (year month day : Int) : Int :=
  let y := if month ≤ 2 then year - 1 else year
  let era := y / 400
  let yoe := y - era * 400
  let mp := if 2 < month then month - 3 else month + 9
  let doy := (153 * mp + 2) / 5 + day - 1
  let doe := yoe * 365 + yoe / 4 - yoe / 100 + doy
  era * 146097 + doe - 719468

/-- The instant of a civil date and time of day, UTC. -/
def unixNano (year month day hour min sec nsec : Nat) : Time :=
  ((daysFromCivil year month day * 86400 + hour * 3600 + min * 60 + sec) * 1000000000 : Int)
    + nsec

/-- Reads the literal character `c`. -/
def expect (c : Char) : List Char → Option (List Char)
  | [] => none
  | d :: cs => if d = c then some cs else none

/-- Reads exactly `n` decimal digits. -/
def fixedNum (n : Nat) (cs : List Char) : Option (Nat × List Char) :=
  if cs.length < n then none
  else (number? (cs.take n)).map fun v => (v, cs.drop n)

/-- Reads one or two decimal digits, two when the second character is a
digit (the hour of the layout). -/
def flexNum (cs : List Char) : Option (Nat × List Char) :=
  match cs with
  | [] => none
  | c :: rest =>
    match digit? c with
    | none => none
    | some a =>
      match rest with
      | [] => some (a, [])
      | d :: rest2 =>
        match digit? d with
        | none => some (a, d :: rest2)
        | some b => some (a * 10 + b, rest2)

/-- Reads a number with `num` and then the literal character `c`. -/
def numThen (num : List Char → Option (Nat × List Char)) (c : Char) (cs : List Char) :
    Option (Nat × List Char) :=
  match num cs with
  | none => none
  | some r =>
    match expect c r.2 with
    | none => none
    | some rest => some (r.1, rest)

/-- Reads `YYYY-MM-DDT`: year, month and day. -/
def dateFields (cs : List Char) : Option ((Nat × Nat × Nat) × List Char) :=
  match numThen (fixedNum 4) '-' cs with
  | none => none
  | some y =>
    match numThen (fixedNum 2) '-' y.2 with
    | none => none
    | some m =>
      match numThen (fixedNum 2) 'T' m.2 with
      | none => none
      | some d => some ((y.1, m.1, d.1), d.2)

/-- Reads `HH:MM:SS.sssZ`: hour, minute, second and milliseconds. -/
def clockFields (cs : List Char) : Option ((Nat × Nat × Nat × Nat) × List Char) :=
  match numThen flexNum ':' cs with
  | none => none
  | some h =>
    match numThen (fixedNum 2) ':' h.2 with
    | none => none
    | some m =>
      match numThen (fixedNum 2) '.' m.2 with
      | none => none
      | some sec =>
        match numThen (fixedNum 3) 'Z' sec.2 with
        | none => none
        | some ms => some ((h.1, m.1, sec.1, ms.1), ms.2)

/-- Range checks of `time.Parse` on the fields read. -/
def fieldsInRange (year month day hour min sec : Nat) : Bool :=
  1 ≤ month ∧ month ≤ 12 ∧ 1 ≤ day ∧ day ≤ daysIn month year ∧ hour < 24 ∧ min < 60 ∧ sec < 60

/-- Reference `time.Parse("2006-01-02T15:04:05.000Z", s)` for timestamps with
a three-digit fraction after a period; `none` when Go returns an error. -/
def refParseTime (s : String) : Option Time :=
  match dateFields s.data with
  | none => none
  | some d =>
    match clockFields d.2 with
    | none => none
    | some c =>
      if c.2 = [] ∧ fieldsInRange d.1.1 d.1.2.1 d.1.2.2 c.1.1 c.1.2.1 c.1.2.2.1 = true then
        some (unixNano d.1.1 d.1.2.1 d.1.2.2 c.1.1 c.1.2.1 c.1.2.2.1 (c.1.2.2.2 * 1000000))
      else none

/-- The decimal digit character of `n % 10`. -/
def digitChar (n : Nat) : Char := Char.ofNat (48 + n % 10)

/-- The last `width` decimal digits of `n`, most significant first. -/
def padded : Nat → Nat → List Char
  | 0, _ => []
  | width + 1, n => padded width (n / 10) ++ [digitChar n]

/-- Drops the trailing zeros of a digit string. -/
def trimZeros (cs : List Char) : List Char :=
  (cs.reverse.dropWhile fun c => c = '0').reverse

/-- Reference `t.Format(time.RFC3339Nano)` for a UTC time of the years
0-9999: the fraction has its trailing zeros removed and is left out when it
is zero. -/
def refFormatTime (t : Time) : String :=
  let secs := t / 1000000000
  let nsec := (t % 1000000000).toNat
  let days := secs / 86400
  let rem := (secs % 86400).toNat
  let z := days + 719468
  let era := z / 146097
  let doe := z - era * 146097
  let yoe := (doe - doe / 1460 + doe / 36524 - doe / 146096) / 365
  let doy := doe - (365 * yoe + yoe / 4 - yoe / 100)
  let mp := (5 * doy + 2) / 153
  let day := doy - (153 * mp + 2) / 5 + 1
  let month := if mp < 10 then mp + 3 else mp - 9
  let year := (if month ≤ 2 then yoe + era * 400 + 1 else yoe + era * 400)
  let frac := trimZeros (padded 9 nsec)
  ⟨padded 4 year.toNat ++ ['-'] ++ padded 2 month.toNat ++ ['-'] ++ padded 2 day.toNat
    ++ ['T'] ++ padded 2 (rem / 3600) ++ [':'] ++ padded 2 (rem % 3600 / 60) ++ [':']
    ++ padded 2 (rem % 60) ++ (if frac = [] then [] else '.' :: frac) ++ ['Z']⟩

/-- Splits off the longest prefix of decimal digits. -/
def spanDigits : List Char → List Char × List Char
  | [] => ([], [])
  | c :: cs =>
    match digit? c with
    | none => ([], c :: cs)
    | some _ => ((spanDigits cs).1.cons c, (spanDigits cs).2)

/-- The exponent part of a decimal numeral: empty, or `e`/`E`, an optional
sign and at least one digit. -/
def exponent? (cs : List Char) : Option Int :=
  match cs with
  | [] => some 0
  | c :: rest =>
    if c = 'e' ∨ c = 'E' then
      match rest with
      | [] => none
      | d :: rest2 =>
        if d = '+' then (number? rest2).map fun n => (n : Int)
        else if d = '-' then (number? rest2).map fun n => -(n : Int)
        else (number? (d :: rest2)).map fun n => (n : Int)
    else none

/-- Exact value of an unsigned decimal numeral: digits with at most one
period and at least one digit, then an optional exponent. -/
def decimal? (cs : List Char) : Option ℚ :=
  let ip := spanDigits cs
  let rest := ip.2
  let fp : List Char × List Char :=
    match rest with
    | [] => ([], [])
    | c :: more => if c = '.' then spanDigits more else ([], c :: more)
  if ip.1 = [] ∧ fp.1 = [] then none
  else
    match digitsFrom? 0 (ip.1 ++ fp.1), exponent? fp.2 with
    | some m, some e => some ((m : ℚ) * (10 : ℚ) ^ (e - (fp.1.length : Int)))
    | _, _ => none

/-- Whether the text is one of the special values `inf`, `infinity` (signed
or not) or `nan`, ignoring case. -/
def isSpecialFloat (cs : List Char) : Bool :=
  let low := cs.map Char.toLower
  let unsigned :=
    match low with
    | c :: rest => if c = '+' ∨ c = '-' then rest else low
    | [] => low
  unsigned = "inf".data ∨ unsigned = "infinity".data ∨ low = "nan".data

/-- Reference `strconv.ParseFloat(s, 64)` for decimal numerals and the
special values, in exact arithmetic: the value is the rational the numeral
denotes; a numeral that rounds beyond the largest `float64` is a range
error. Hexadecimal numerals are not covered. -/
def refParseFloat (s : String) : ParseFloatResult :=
  if isSpecialFloat s.data then .ok none
  else
    let signed : Bool × List Char :=
      match s.data with
      | c :: cs => if c = '+' then (false, cs) else if c = '-' then (true, cs) else (false, c :: cs)
      | [] => (false, [])
    match decimal? signed.2 with
    | none => .errSyntax
    | some q =>
      if (2 ^ 54 - 1 : ℚ) * 2 ^ 970 ≤ q then .errRange
      else .ok (some (if signed.1 then -q else q))

/-- Characters allowed in a host name here: letters, digits, period and
hyphen. -/
def hostChar (c : Char) : Bool :=
  c.isAlphanum ∨ c = '.' ∨ c = '-'

/-- Characters allowed after the host here. -/
def plainUrlChar (c : Char) : Bool :=
  c.isAlphanum ∨ c ∈ "-._~/?&=$(),:%+@!*;".data

/-- Whether a character is a hexadecimal digit. -/
def hexChar (c : Char) : Bool :=
  c.isDigit ∨ c ∈ "abcdefABCDEF".data

/-- Whether every `%` is followed by two hexadecimal digits. -/
def validEscapes : List Char → Bool
  | [] => true
  | c :: a :: b :: rest =>
    if c = '%' then hexChar a && hexChar b && validEscapes rest
    else validEscapes (a :: b :: rest)
  | c :: rest => c ≠ '%' && validEscapes rest

/-- Whether the text after the host is empty or a path or query of plain
characters, after an optional `:port`. -/
def validAfterHost (cs : List Char) : Bool :=
  let afterPort :=
    match cs with
    | c :: rest => if c = ':' ∧ (spanDigits rest).1 ≠ [] then (spanDigits rest).2 else cs
    | [] => cs
  match afterPort with
  | [] => true
  | c :: rest => (c = '/' ∨ c = '?') && rest.all plainUrlChar && validEscapes rest

/-- Reference `http.NewRequest("GET", url, nil)`: `true` on the URLs
`http://host[:port][/path][?query]` with a plain host name and plain path and
query characters, all of which Go accepts. -/
def refNewRequestOk (url : String) : Bool :=
  "http://".data.isPrefixOf url.data ∧
    (url.data.drop 7).takeWhile hostChar ≠ [] ∧
    validAfterHost ((url.data.drop 7).dropWhile hostChar)

/-- The reference library. -/
def refLib : Lib where
  parseInt := refParseInt
  parseTime := refParseTime
  formatTime := refFormatTime
  parseFloat := refParseFloat
  newRequestOk := refNewRequestOk

/-! ## Derived notions used in the statements -/

/-- The requests a fetch issues that starts at `url` and follows the
`NextLink` of each of `pages`. -/
def chainRequests (url : String) (pages : List SensorThingsResponseObservations) : List String :=
  encodeUrl url :: pages.map fun p => encodeUrl p.NextLink

/-- The observations of a list of pages, in page order. -/
def allObservations (pages : List SensorThingsResponseObservations) : List Observation :=
  pages.flatMap fun p => p.Observations

/-- The rate per minute between two adjacent observations, as one iteration
of the loop of `createPredict` computes it. -/
def pairRate (lib : Lib) (a b : Observation) : F64 :=
  fdiv (fsub (resultValue lib a) (resultValue lib b))
    (minutes (timeSub (phenomenonTime lib a) (phenomenonTime lib b)))

/-- The rates between the adjacent observations of a sequence, in order. -/
def pairRates (lib : Lib) : List Observation → List F64
  | a :: b :: rest => pairRate lib a b :: pairRates lib (b :: rest)
  | _ => []

/-- Sum of floats, accumulated from `0` left to right. -/
def fsum (l : List F64) : F64 := l.foldl fadd (some 0)

/-- The horizon `predictAndNowMinutesDelta` of `createPredict`. -/
def minutesAhead (clock : Clock) (toPredictTime : Time) : ℚ :=
  minutes (timeSub toPredictTime clock.now3)

/-- An observation whose result is a syntax error for `ParseFloat` gets the
result text `z` instead; any other observation is unchanged. -/
def zeroUnparsed (lib : Lib) (z : String) (o : Observation) : Observation :=
  if lib.parseFloat o.Result = .errSyntax then { o with Result := z } else o

/-! ## Concrete scenarios -/

/-- A response with status 200 whose body decodes to the given page. -/
def okPage (obs : List Observation) (next : String) : Reply :=
  .response 200 (.json { Count := 0, NextLink := next, Observations := obs })

/-- Base URL of the scenarios. -/
def demoHost : String := "http://gost.example"

/-- All three clock readings are 2017-01-01T12:00:00Z. -/
def demoClock : Clock :=
  { now1 := 1483272000000000000, now2 := 1483272000000000000, now3 := 1483272000000000000 }

/-- The filtered query of datastream `1` with span `60` at `demoClock`, as
requested after `encodeUrl`. -/
def demoFilteredRequest : String :=
  "http://gost.example/v1.0/Datastreams(1)/Observations?$filter=phenomenonTime%20gt%20%272017-01-01T11:00:00Z%27&$select=result,phenomenonTime"

/-- The fallback query of datastream `1`, as requested. -/
def demoFallbackRequest : String :=
  "http://gost.example/v1.0/Datastreams(1)/Observations?$top=2&$select=result,phenomenonTime"

/-- Observation of value 100 at 12:00. -/
def obsA : Observation := { PhenomenonTime := "2017-01-01T12:00:00.000Z", Result := "100" }

/-- Observation of value 90 at 11:50, ten minutes before `obsA`. -/
def obsB : Observation := { PhenomenonTime := "2017-01-01T11:50:00.000Z", Result := "90" }

/-- Observation at 12:00 whose result is not a number. -/
def obsBad : Observation := { PhenomenonTime := "2017-01-01T12:00:00.000Z", Result := "abc" }

/-- The filtered query returns `obsA` and `obsB`, newest first. -/
def netTwo : Net := fun _ url =>
  if url = demoFilteredRequest then okPage [obsA, obsB] "" else .failure "connection refused"

/-- The filtered query returns only `obsA`; the fallback query returns `obsA`
and `obsB`. -/
def netFallback : Net := fun _ url =>
  if url = demoFilteredRequest then okPage [obsA] ""
  else if url = demoFallbackRequest then okPage [obsA, obsB] ""
  else .failure "connection refused"

/-- A datastream without observations: both queries return an empty page. -/
def netEmpty : Net := fun _ url =>
  if url = demoFilteredRequest then okPage [] ""
  else if url = demoFallbackRequest then okPage [] ""
  else .failure "connection refused"

/-- A datastream with the single observation `obsA`, older than the window:
the filtered query returns nothing, the fallback query returns `obsA`. -/
def netOne : Net := fun _ url =>
  if url = demoFilteredRequest then okPage [] ""
  else if url = demoFallbackRequest then okPage [obsA] ""
  else .failure "connection refused"

/-- The filtered query returns `obsBad` and `obsB`. -/
def netBad : Net := fun _ url =>
  if url = demoFilteredRequest then okPage [obsBad, obsB] "" else .failure "connection refused"

/-- An observation numbered `n`. -/
def obsN (n : String) : Observation := { PhenomenonTime := "2017-01-01T12:00:00.000Z", Result := n }

/-- Three pages of sizes 2, 1 and 3 chained by `NextLink`. -/
def netPages : Net := fun _ url =>
  if url = "http://gost.example/p1" then okPage [obsN "1", obsN "2"] "http://gost.example/p2"
  else if url = "http://gost.example/p2" then okPage [obsN "3"] "http://gost.example/p3"
  else if url = "http://gost.example/p3" then okPage [obsN "4", obsN "5", obsN "6"] ""
  else .failure "connection refused"

/-- The first page links to a second one that is answered with status 500 and
an error document, which decodes to a page without observations. -/
def netStatus : Net := fun _ url =>
  if url = "http://gost.example/p1" then okPage [obsN "1", obsN "2"] "http://gost.example/p2"
  else if url = "http://gost.example/p2" then
    .response 500 (.json { Count := 0, NextLink := "", Observations := [] })
  else .failure "connection refused"

/-- The first page links to a second one whose request fails. -/
def netBroken : Net := fun _ url =>
  if url = "http://gost.example/p1" then okPage [obsN "1", obsN "2"] "http://gost.example/p2"
  else .failure "connection reset"

/-- All three clock readings are 2017-01-01T12:01:00.123Z, an instant whose
`RFC3339Nano` text has exactly three fraction digits. -/
def lateClock : Clock :=
  { now1 := 1483272060123000000, now2 := 1483272060123000000, now3 := 1483272060123000000 }

/-- The filtered query of datastream `1` with span `60` at `lateClock`, as
requested after `encodeUrl`. -/
def lateFilteredRequest : String :=
  "http://gost.example/v1.0/Datastreams(1)/Observations?$filter=phenomenonTime%20gt%20%272017-01-01T11:01:00.123Z%27&$select=result,phenomenonTime"

/-- Observation of value 100 at 12:00:00.123, one minute before `lateClock`. -/
def obsC : Observation := { PhenomenonTime := "2017-01-01T12:00:00.123Z", Result := "100" }

/-- Observation of value 90 at 11:50:00.123, ten minutes before `obsC`. -/
def obsD : Observation := { PhenomenonTime := "2017-01-01T11:50:00.123Z", Result := "90" }

/-- The filtered query at `lateClock` returns `obsC` and `obsD`, newest
first. -/
def netLate : Net := fun _ url =>
  if url = lateFilteredRequest then okPage [obsC, obsD] "" else .failure "connection refused"

/-- All three clock readings are 2017-01-01T12:00:00.123Z, the time of
`obsC`. -/
def sameClock : Clock :=
  { now1 := 1483272000123000000, now2 := 1483272000123000000, now3 := 1483272000123000000 }

/-- The filtered query of datastream `1` with span `60` at `sameClock`, as
requested after `encodeUrl`. -/
def sameFilteredRequest : String :=
  "http://gost.example/v1.0/Datastreams(1)/Observations?$filter=phenomenonTime%20gt%20%272017-01-01T11:00:00.123Z%27&$select=result,phenomenonTime"

/-- The filtered query at `sameClock` returns `obsC` and `obsD`, newest
first. -/
def netSame : Net := fun _ url =>
  if url = sameFilteredRequest then okPage [obsC, obsD] "" else .failure "connection refused"

/-! ## `encodeUrl`: lemmas -/

/-- The two replacement passes of `encodeUrl` amount to one per-character
substitution. -/
theorem encodeUrl_data (s : String) :
    (encodeUrl s).data = s.data.flatMap fun c => (encodeChar c).data := by
  simp only [encodeUrl, replaceAll, List.flatMap_assoc]
  congr 1
  funext c
  by_cases h1 : c = ' '
  · subst h1
    decide
  · by_cases h2 : c = Char.ofNat 39
    · subst h2
      decide
    · simp [encodeChar, h1, h2, String.singleton]

/-- No character of an encoded character is a space or a single quote. -/
theorem encodeChar_clean (c d : Char) (hd : d ∈ (encodeChar c).data) :
    d ≠ ' ' ∧ d ≠ Char.ofNat 39 := by
  unfold encodeChar at hd
  split_ifs at hd with h1 h2
  · have : d = '%' ∨ d = '2' ∨ d = '0' := by simpa using hd
    rcases this with h | h | h <;> subst h <;> decide
  · have : d = '%' ∨ d = '2' ∨ d = '7' := by simpa using hd
    rcases this with h | h | h <;> subst h <;> decide
  · have : d = c := by simpa [String.singleton] using hd
    subst this
    exact ⟨h1, h2⟩

/-! ## `getObservations`: lemmas -/

/-- A non-empty string has non-zero length. -/
theorem length_ne_zero_of_ne_empty {s : String} (h : s ≠ "") : s.length ≠ 0 := by
  intro h0
  apply h
  have : s.data = [] := List.length_eq_zero.mp h0
  exact String.ext this

/-- A reply that decodes to a page is a response with a JSON body. -/
theorem page_of_reply {r : Reply} {p : SensorThingsResponseObservations}
    (h : r.page? = some p) : ∃ st, r = .response st (.json p) := by
  cases r with
  | failure err => simp [Reply.page?] at h
  | response st body =>
    cases body with
    | malformed err => simp [Reply.page?] at h
    | json page =>
      simp only [Reply.page?, Option.some.injEq] at h
      exact ⟨st, by rw [h]⟩

/-- One unfolding of `getObservations` at a page with a continuation link. -/
theorem getObservations_step {lib : Lib} {net : Net} {url : String}
    {p : SensorThingsResponseObservations} (fuel sent : Nat) (acc : List Observation)
    (hreq : lib.newRequestOk (encodeUrl url) = true)
    (hpage : (net sent (encodeUrl url)).page? = some p) (hnext : p.NextLink ≠ "") :
    getObservations lib net (fuel + 1) sent url acc =
      match getObservations lib net fuel (sent + 1) p.NextLink (acc ++ p.Observations) with
      | none => none
      | some r =>
        match r.result with
        | .ok observations => some ⟨encodeUrl url :: r.requests, .ok observations⟩
        | .error err => some ⟨encodeUrl url :: r.requests, .error err⟩
        | .panic msg => some ⟨encodeUrl url :: r.requests, .panic msg⟩ := by
  obtain ⟨st, hst⟩ := page_of_reply hpage
  rw [getObservations]
  have hlen := length_ne_zero_of_ne_empty hnext
  simp [hreq, hst, hlen]

/-- The run of `getObservations` at a page without continuation link. -/
theorem getObservations_last {lib : Lib} {net : Net} {url : String}
    {p : SensorThingsResponseObservations} (fuel sent : Nat) (acc : List Observation)
    (hreq : lib.newRequestOk (encodeUrl url) = true)
    (hpage : (net sent (encodeUrl url)).page? = some p) (hnext : p.NextLink = "") :
    getObservations lib net (fuel + 1) sent url acc =
      some ⟨[encodeUrl url], .ok (acc ++ p.Observations)⟩ := by
  obtain ⟨st, hst⟩ := page_of_reply hpage
  rw [getObservations]
  simp [hreq, hst, hnext]

/-- Along a served chain `getObservations` appends all pages to its
accumulator. -/
theorem getObservations_chain_acc (lib : Lib) (net : Net) :
    ∀ (pages : List SensorThingsResponseObservations) (sent : Nat) (url : String) (fuel : Nat)
      (acc : List Observation), ServesChain lib net sent url pages → pages.length ≤ fuel →
      getObservations lib net fuel sent url acc =
        some ⟨chainRequests url pages.dropLast, .ok (acc ++ allObservations pages)⟩
  | [], _, _, _, _, h, _ => by simp [ServesChain] at h
  | [p], sent, url, fuel, acc, h, hf => by
    obtain ⟨hreq, hpage, hnext⟩ := h
    obtain ⟨n, rfl⟩ : ∃ n, fuel = n + 1 := ⟨fuel - 1, by simp at hf; omega⟩
    rw [getObservations_last n sent acc hreq hpage hnext]
    simp [chainRequests, allObservations]
  | p :: q :: rest, sent, url, fuel, acc, h, hf => by
    obtain ⟨hreq, hpage, hnext, hrest⟩ := h
    obtain ⟨n, rfl⟩ : ∃ n, fuel = n + 1 := ⟨fuel - 1, by simp at hf; omega⟩
    have ih := getObservations_chain_acc lib net (q :: rest) (sent + 1) p.NextLink n
      (acc ++ p.Observations) hrest (by simp at hf ⊢; omega)
    rw [getObservations_step n sent acc hreq hpage hnext, ih]
    simp [chainRequests, allObservations]

/-- After any served pages, a failing request makes `getObservations` return
the error, whatever it accumulated. -/
theorem getObservations_fails_acc (lib : Lib) (net : Net) (err : String) :
    ∀ (pages : List SensorThingsResponseObservations) (sent : Nat) (url : String) (fuel : Nat)
      (acc : List Observation), FailsAfter lib net err sent url pages → pages.length < fuel →
      getObservations lib net fuel sent url acc = some ⟨chainRequests url pages, .error err⟩
  | [], sent, url, fuel, acc, h, hf => by
    obtain ⟨hreq, herr⟩ := h
    obtain ⟨n, rfl⟩ : ∃ n, fuel = n + 1 := ⟨fuel - 1, by simp at hf; omega⟩
    rw [getObservations]
    cases hr : net sent (encodeUrl url) with
    | failure e =>
      rw [hr] at herr
      simp only [Reply.fetchError?, Option.some.injEq] at herr
      simp [hreq, herr, chainRequests]
    | response st body =>
      cases body with
      | malformed e =>
        rw [hr] at herr
        simp only [Reply.fetchError?, Option.some.injEq] at herr
        simp [hreq, herr, chainRequests]
      | json page =>
        rw [hr] at herr
        simp [Reply.fetchError?] at herr
  | p :: rest, sent, url, fuel, acc, h, hf => by
    obtain ⟨hreq, hpage, hnext, hrest⟩ := h
    obtain ⟨n, rfl⟩ : ∃ n, fuel = n + 1 := ⟨fuel - 1, by simp at hf; omega⟩
    have ih := getObservations_fails_acc lib net err rest (sent + 1) p.NextLink n
      (acc ++ p.Observations) hrest (by simp at hf ⊢; omega)
    rw [getObservations_step n sent acc hreq hpage hnext, ih]
    simp [chainRequests]

/-! ## The rate loop: lemmas -/

/-- In exact arithmetic `d.Minutes()` is `d / 6e10`. -/
theorem minutes_eq (d : Duration) : minutes d = (d : ℚ) / 60000000000 := by
  unfold minutes Minute
  have h := Int.tdiv_add_tmod d 60000000000
  have hq : ((60000000000 * d.tdiv 60000000000 + d.tmod 60000000000 : Int) : ℚ) = (d : ℚ) := by
    rw [h]
  push_cast at hq
  rw [← hq]
  ring

/-- Only the zero duration has zero minutes. -/
theorem minutes_eq_zero {d : Duration} : minutes d = 0 ↔ d = 0 := by
  rw [minutes_eq]
  constructor
  · intro h
    have : (d : ℚ) = 0 := by
      rcases div_eq_zero_iff.mp h with h | h
      · exact h
      · norm_num at h
    exact_mod_cast this
  · intro h
    simp [h]

/-- A sequence of `n` observations has `n - 1` adjacent pairs. -/
theorem pairRates_length (lib : Lib) : ∀ obs : List Observation,
    (pairRates lib obs).length = obs.length - 1
  | [] => rfl
  | [_] => rfl
  | a :: b :: rest => by
    simp [pairRates, pairRates_length lib (b :: rest)]

/-- The `n`-th pair rate is the rate between observations `n` and `n + 1`. -/
theorem pairRates_getElem? (lib : Lib) : ∀ (obs : List Observation) (n : Nat),
    n + 1 < obs.length →
    (pairRates lib obs)[n]? = some (pairRate lib (obs.getD n default) (obs.getD (n + 1) default))
  | [], n, h => by simp at h
  | [_], n, h => by simp at h
  | a :: b :: rest, 0, _ => by simp [pairRates]
  | a :: b :: rest, n + 1, h => by
    have ih := pairRates_getElem? lib (b :: rest) n (by simpa using h)
    simpa [pairRates] using ih

/-- The first `n + 1` pair rates are the first `n` followed by the `n`-th. -/
theorem pairRates_take_succ (lib : Lib) (obs : List Observation) (n : Nat)
    (h : n + 1 < obs.length) :
    (pairRates lib obs).take (n + 1) = (pairRates lib obs).take n ++
      [pairRate lib (obs.getD n default) (obs.getD (n + 1) default)] := by
  rw [List.take_succ, pairRates_getElem? lib obs n h]
  rfl

/-- Summing one more float adds it to the sum. -/
theorem fsum_append_singleton (l : List F64) (x : F64) : fsum (l ++ [x]) = fadd (fsum l) x := by
  simp [fsum, List.foldl_append]

/-- State of the rate loop after `n` iterations. -/
theorem rateLoop_steps (lib : Lib) (obs : List Observation) : ∀ n : Nat, n + 1 ≤ obs.length →
    (List.range n).foldl (rateStep lib obs) ⟨[], some 0, some 0⟩ =
      ⟨(pairRates lib obs).take n, fsum ((pairRates lib obs).take n),
        if n = 0 then some 0 else resultValue lib (obs.getD 0 default)⟩
  | 0, _ => by simp [fsum]
  | n + 1, h => by
    rw [List.range_succ, List.foldl_append, rateLoop_steps lib obs n (by omega)]
    rw [pairRates_take_succ lib obs n (by omega), fsum_append_singleton]
    simp only [List.foldl_cons, List.foldl_nil, rateStep, pairRate]
    by_cases hn : n = 0
    · subst hn
      simp
    · simp [hn]

/-- State of the rate loop when it ends. -/
theorem rateLoop_closed (lib : Lib) (a : Observation) (rest : List Observation) :
    (List.range ((a :: rest).length - 1)).foldl (rateStep lib (a :: rest)) ⟨[], some 0, some 0⟩ =
      ⟨pairRates lib (a :: rest), fsum (pairRates lib (a :: rest)),
        if rest = [] then some 0 else resultValue lib a⟩ := by
  rw [rateLoop_steps lib (a :: rest) ((a :: rest).length - 1) (by simp)]
  have hlen := pairRates_length lib (a :: rest)
  rw [List.take_of_length_le (by omega)]
  cases rest with
  | nil => simp
  | cons b tl => simp

/-- Closed form of the response computed from a non-empty sequence. -/
theorem extrapolate_cons (lib : Lib) (clock : Clock) (t : Time) (o : Observation)
    (rest : List Observation) :
    extrapolate lib clock t (o :: rest) =
      .ok { Rate := fdiv (fsum (pairRates lib (obNow lib clock o :: o :: rest)))
              ((rest.length + 1 : Nat) : ℚ)
            LastWeek := some 0
            Prediction := fadd (resultValue lib o)
              (fmul (minutesAhead clock t)
                (fdiv (fsum (pairRates lib (obNow lib clock o :: o :: rest)))
                  ((rest.length + 1 : Nat) : ℚ))) } := by
  have h := rateLoop_closed lib (obNow lib clock o) (o :: rest)
  simp only [extrapolate]
  rw [h]
  simp [pairRates_length, minutesAhead, resultValue, obNow]

/-! ## `createPredict`: lemmas -/

/-- With a parsed target time and a successful fetch phase, `createPredict`
returns what the extrapolation gives. -/
theorem createPredict_of_fetch {lib : Lib} {net : Net} {clock : Clock} {fuel : Nat}
    {host datastream predictTime span : String} {t : Time} {reqs : List String}
    {obs : List Observation} (hpt : lib.parseTime predictTime = some t)
    (hfetch : fetchWindow lib net clock fuel host datastream span = some ⟨reqs, .ok obs⟩) :
    createPredict lib net clock fuel host datastream predictTime span =
      some ⟨reqs, extrapolate lib clock t obs⟩ := by
  simp [createPredict, hpt, hfetch]

/-- Every successful run of `createPredict` parsed its target time and got a
non-empty observation sequence from the fetch phase. -/
theorem createPredict_ok_inv {lib : Lib} {net : Net} {clock : Clock} {fuel : Nat}
    {host datastream predictTime span : String} {reqs : List String}
    {pr : PredictionResponse}
    (h : createPredict lib net clock fuel host datastream predictTime span =
      some ⟨reqs, .ok pr⟩) :
    ∃ (t : Time) (o : Observation) (rest : List Observation),
      lib.parseTime predictTime = some t ∧
      fetchWindow lib net clock fuel host datastream span = some ⟨reqs, .ok (o :: rest)⟩ := by
  unfold createPredict at h
  cases hpt : lib.parseTime predictTime with
  | none => simp [hpt] at h
  | some t =>
    cases hf : fetchWindow lib net clock fuel host datastream span with
    | none => simp [hpt, hf] at h
    | some r =>
      obtain ⟨rq, res⟩ := r
      cases res with
      | error e => simp [hpt, hf] at h
      | panic m => simp [hpt, hf] at h
      | ok obs =>
        cases obs with
        | nil => simp [hpt, hf, extrapolate] at h
        | cons o rest =>
          simp only [hpt, hf, Option.some.injEq, Ran.mk.injEq] at h
          exact ⟨t, o, rest, rfl, by rw [h.1]⟩

/-- The method `t.Sub(u)` on integers. -/
theorem timeSub_def (a b : Int) :
    @Eq Int (timeSub a b)
      (if a - b < -9223372036854775808 then -9223372036854775808
      else if 9223372036854775807 < a - b then 9223372036854775807
      else a - b) :=
  rfl

/-- The saturated difference of two times is zero only for equal times. -/
theorem timeSub_eq_zero {a b : Int} : @Eq Int (timeSub a b) 0 ↔ a = b := by
  rw [timeSub_def]
  constructor
  · intro h
    split_ifs at h <;> omega
  · intro h
    subst h
    simp

/-- A difference within the range of `Duration` is not saturated. -/
theorem timeSub_of_fits {a b : Int} (hlo : -9223372036854775808 ≤ a - b)
    (hhi : a - b ≤ 9223372036854775807) : @Eq Int (timeSub a b) (a - b) := by
  rw [timeSub_def]
  split_ifs <;> omega

/-- A difference above the range of `Duration` gives the largest duration. -/
theorem timeSub_of_above {a b : Int} (h : 9223372036854775807 < a - b) :
    @Eq Int (timeSub a b) 9223372036854775807 := by
  rw [timeSub_def]
  split_ifs <;> omega

/-- A difference below the range of `Duration` gives the smallest duration. -/
theorem timeSub_of_below {a b : Int} (h : a - b < -9223372036854775808) :
    @Eq Int (timeSub a b) (-9223372036854775808) := by
  rw [timeSub_def, if_pos h]

/-- The horizon of `createPredict` in plain terms: the difference between
target time and clock reading in nanoseconds over `6e10`, with the difference
replaced by the nearest `Duration` when it does not fit. -/
theorem minutesAhead_cases (clock : Clock) (t : Time) :
    (-9223372036854775808 ≤ t - clock.now3 → t - clock.now3 ≤ 9223372036854775807 →
      minutesAhead clock t = ((t - clock.now3 : Int) : ℚ) / 60000000000) ∧
    (9223372036854775807 < t - clock.now3 →
      minutesAhead clock t = (9223372036854775807 : ℚ) / 60000000000) ∧
    (t - clock.now3 < -9223372036854775808 →
      minutesAhead clock t = (-9223372036854775808 : ℚ) / 60000000000) := by
  refine ⟨fun hlo hhi => ?_, fun h => ?_, fun h => ?_⟩
  · rw [minutesAhead, minutes_eq, timeSub_of_fits hlo hhi]
  · rw [minutesAhead, minutes_eq, timeSub_of_above h]
    norm_num
  · rw [minutesAhead, minutes_eq, timeSub_of_below h]
    norm_num

/-- Zero is a left unit of float addition. -/
theorem fadd_zero_left (x : F64) : fadd (some 0) x = x := by
  cases x <;> simp [fadd]

/-- A leading zero does not change a sum. -/
theorem fsum_cons_zero (l : List F64) : fsum (some 0 :: l) = fsum l := by
  simp [fsum, fadd]

/-- The interval between the synthetic observation and the first fetched one
has rate 0 when its delta is non-zero and the value finite. -/
theorem pairRate_obNow (lib : Lib) (clock : Clock) (o : Observation) (v : ℚ)
    (hv : resultValue lib o = some v)
    (hdelta : timeSub (phenomenonTime lib (obNow lib clock o)) (phenomenonTime lib o) ≠ 0) :
    pairRate lib (obNow lib clock o) o = some 0 := by
  have hm : minutes (timeSub (phenomenonTime lib (obNow lib clock o)) (phenomenonTime lib o)) ≠ 0 :=
    fun h => hdelta (minutes_eq_zero.mp h)
  have hv' : resultValue lib (obNow lib clock o) = some v := by
    simpa [resultValue, obNow] using hv
  simp [pairRate, hv, hv', fsub, fdiv, hm]

/-- Pair rates only depend on the values and times of the observations. -/
theorem pairRates_map (lib : Lib) (g : Observation → Observation)
    (hval : ∀ o, resultValue lib (g o) = resultValue lib o)
    (htime : ∀ o, phenomenonTime lib (g o) = phenomenonTime lib o) :
    ∀ obs : List Observation, pairRates lib (obs.map g) = pairRates lib obs
  | [] => rfl
  | [_] => rfl
  | a :: b :: rest => by
    have ih := pairRates_map lib g hval htime (b :: rest)
    simp only [List.map_cons] at ih ⊢
    simp only [pairRates, pairRate, hval, htime, ih]

/-- Replacing an unparseable result by a text that parses to 0 keeps the
value. -/
theorem zeroUnparsed_value (lib : Lib) (z : String) (hz : lib.parseFloat z = .ok (some 0))
    (o : Observation) : resultValue lib (zeroUnparsed lib z o) = resultValue lib o := by
  unfold zeroUnparsed
  split_ifs with h
  · simp [resultValue, hz, h, ParseFloatResult.value]
  · rfl

/-- Replacing the result keeps the time. -/
theorem zeroUnparsed_time (lib : Lib) (z : String) (o : Observation) :
    phenomenonTime lib (zeroUnparsed lib z o) = phenomenonTime lib o := by
  unfold zeroUnparsed
  split_ifs <;> rfl

/-- Pair rates of the sequence with its synthetic observation only depend on
the values and times. -/
theorem pairRates_obNow_map (lib : Lib) (clock : Clock) (g : Observation → Observation)
    (hval : ∀ o, resultValue lib (g o) = resultValue lib o)
    (htime : ∀ o, phenomenonTime lib (g o) = phenomenonTime lib o)
    (o : Observation) (rest : List Observation) :
    pairRates lib (obNow lib clock (g o) :: g o :: rest.map g) =
      pairRates lib (obNow lib clock o :: o :: rest) := by
  have h := pairRates_map lib g hval htime (o :: rest)
  simp only [List.map_cons] at h
  have hnow : resultValue lib (obNow lib clock (g o)) = resultValue lib (obNow lib clock o) := by
    have := hval o
    simpa [resultValue, obNow] using this
  have htnow : phenomenonTime lib (obNow lib clock (g o)) = phenomenonTime lib (obNow lib clock o) :=
    rfl
  simp only [pairRates, pairRate, h, hnow, htnow, hval, htime]

/-! ## The claims -/

/-- Claim C1. When the remote source serves a finite chain of pages from
`url` on (every page fetched and decoded, every page but the last with a
non-empty `NextLink` to the next), `getObservations(url, nil)` terminates (any
fuel of at least the number of pages is enough) and returns exactly the
observations of the pages, concatenated in page order, after one request per
page. -/
theorem getObservations_concatenates_chain (lib : Lib) (net : Net)
    (pages : List SensorThingsResponseObservations) (sent : Nat) (url : String) (fuel : Nat)
    (hchain : ServesChain lib net sent url pages) (hfuel : pages.length ≤ fuel) :
    getObservations lib net fuel sent url [] =
      some ⟨chainRequests url pages.dropLast, .ok (allObservations pages)⟩ := by
  simpa using getObservations_chain_acc lib net pages sent url fuel [] hchain hfuel

/-- Three pages of sizes 2, 1 and 3 yield the six observations in their
original order. -/
theorem getObservations_three_pages :
    getObservations refLib netPages 3 0 "http://gost.example/p1" [] =
      some ⟨["http://gost.example/p1", "http://gost.example/p2", "http://gost.example/p3"],
        .ok [obsN "1", obsN "2", obsN "3", obsN "4", obsN "5", obsN "6"]⟩ :=
  getObservations_concatenates_chain refLib netPages
    [{ Count := 0, NextLink := "http://gost.example/p2", Observations := [obsN "1", obsN "2"] },
     { Count := 0, NextLink := "http://gost.example/p3", Observations := [obsN "3"] },
     { Count := 0, NextLink := "", Observations := [obsN "4", obsN "5", obsN "6"] }]
    0 "http://gost.example/p1" 3
    ⟨by decide!, by decide!, by decide!, by decide!, by decide!, by decide!, by decide!,
      by decide!, by decide!⟩
    (by decide)

/-- Claim C2, as stated, fails on its own example, observations
`[(now, 100), (now - 10m, 90)]` and target time `now + 20m`. At 12:00:00, whose
synthetic timestamp has no fraction, the returned rate is 1/2 per minute and
the prediction 110, not 1 and 120; at 12:00:00.123 the synthetic observation
has the time of the first fetched one and rate and prediction are not
finite. -/
theorem createPredict_example_rate_is_half :
    createPredict refLib netTwo demoClock 1 demoHost "1" "2017-01-01T12:20:00.000Z" "60" =
        some ⟨[demoFilteredRequest], .ok ⟨some (1 / 2), some 0, some 110⟩⟩ ∧
      createPredict refLib netTwo demoClock 1 demoHost "1" "2017-01-01T12:20:00.000Z" "60" ≠
        some ⟨[demoFilteredRequest], .ok ⟨some 1, some 0, some 120⟩⟩ ∧
      createPredict refLib netSame sameClock 1 demoHost "1" "2017-01-01T12:20:00.123Z" "60" =
        some ⟨[sameFilteredRequest], .ok ⟨none, some 0, none⟩⟩ := by
  decide!

/-- Claim C2, amended. In exact arithmetic, for two fetched observations with
finite values `v0` at time `t0` and `v1` at time `t1`, where `t0 - t1` is `D > 0`
minutes (`D = (t0 - t1) / 6e10` with the times in nanoseconds), whenever the
time delta between the synthetic observation and the first fetched one is
non-zero, the rate `createPredict` returns is half the single interval's
rate, `((v0 - v1) / D) / 2`: the synthetic interval of rate 0 is averaged in.
The prediction is `v0` plus the minutes from the last clock reading to the
target time, times that rate. -/
theorem createPredict_two_observations (lib : Lib) (net : Net) (clock : Clock) (fuel : Nat)
    (host datastream predictTime span : String) (t t0 t1 : Time) (reqs : List String)
    (o0 o1 : Observation) (v0 v1 : ℚ)
    (hpt : lib.parseTime predictTime = some t)
    (hfetch : fetchWindow lib net clock fuel host datastream span = some ⟨reqs, .ok [o0, o1]⟩)
    (hv0 : resultValue lib o0 = some v0) (hv1 : resultValue lib o1 = some v1)
    (ht0 : lib.parseTime o0.PhenomenonTime = some t0)
    (ht1 : lib.parseTime o1.PhenomenonTime = some t1)
    (hD : 0 < t0 - t1) (hDfit : t0 - t1 ≤ 9223372036854775807)
    (hnow : phenomenonTime lib (obNow lib clock o0) ≠ t0)
    (hlo : -9223372036854775808 ≤ t - clock.now3)
    (hhi : t - clock.now3 ≤ 9223372036854775807) :
    createPredict lib net clock fuel host datastream predictTime span =
      some ⟨reqs, .ok
        { Rate := some ((v0 - v1) / (((t0 - t1 : Int) : ℚ) / 60000000000) / 2)
          LastWeek := some 0
          Prediction := some (v0 + ((t - clock.now3 : Int) : ℚ) / 60000000000 *
            ((v0 - v1) / (((t0 - t1 : Int) : ℚ) / 60000000000) / 2)) }⟩ := by
  have hp0 : phenomenonTime lib o0 = t0 := by simp [phenomenonTime, ht0]
  have hp1 : phenomenonTime lib o1 = t1 := by simp [phenomenonTime, ht1]
  have hdelta : timeSub (phenomenonTime lib (obNow lib clock o0)) (phenomenonTime lib o0) ≠ 0 := by
    rw [hp0]
    exact fun h => hnow (timeSub_eq_zero.mp h)
  have hDq : ((t0 - t1 : Int) : ℚ) / 60000000000 ≠ 0 := by
    have : (0 : ℚ) < ((t0 - t1 : Int) : ℚ) := by exact_mod_cast hD
    positivity
  rw [createPredict_of_fetch hpt hfetch, extrapolate_cons]
  have h0 := pairRate_obNow lib clock o0 v0 hv0 hdelta
  have hDlo : -9223372036854775808 ≤ t0 - t1 := le_trans (by norm_num) hD.le
  have h1 : pairRate lib o0 o1 = some ((v0 - v1) / (((t0 - t1 : Int) : ℚ) / 60000000000)) := by
    rw [pairRate, hp0, hp1, minutes_eq, timeSub_of_fits hDlo hDfit, hv0, hv1]
    simp only [fsub, fdiv, if_neg hDq]
  have hm := (minutesAhead_cases clock t).1 hlo hhi
  simp only [pairRates, h0, h1, fsum_cons_zero, hm]
  simp [fsum, fadd, fdiv, fmul, hv0]

/-- The amended claim C2 on observations one and eleven minutes before a
clock reading whose synthetic timestamp parses, and a target 20 minutes
ahead: rate 1/2 and prediction 110. -/
theorem createPredict_two_observations_example :
    createPredict refLib netLate lateClock 1 demoHost "1" "2017-01-01T12:21:00.123Z" "60" =
      some ⟨[lateFilteredRequest], .ok ⟨some (1 / 2), some 0, some 110⟩⟩ :=
  (createPredict_two_observations refLib netLate lateClock 1 demoHost "1"
    "2017-01-01T12:21:00.123Z" "60" 1483273260123000000 1483272000123000000
    1483271400123000000 [lateFilteredRequest] obsC obsD 100 90
    (by decide!) (by decide!) (by decide!) (by decide!) (by decide!) (by decide!)
    (by decide!) (by decide!) (by decide!) (by decide!) (by decide!)).trans
    (by decide!)

/-- Claim C3 fails on the code. For a datastream without observations both
fetches succeed with an empty sequence and `createPredict` panics on `obs[0]`
instead of returning an error; with a single observation the fallback returns
one observation and `createPredict` runs the extrapolation and returns a
`PredictionResponse` of rate 0. -/
theorem createPredict_insufficient_data :
    createPredict refLib netEmpty demoClock 1 demoHost "1" "2017-01-01T12:20:00.000Z" "60" =
        some ⟨[demoFilteredRequest, demoFallbackRequest],
          .panic "index out of range [0] with length 0"⟩ ∧
      createPredict refLib netOne demoClock 1 demoHost "1" "2017-01-01T12:20:00.000Z" "60" =
        some ⟨[demoFilteredRequest, demoFallbackRequest],
          .ok ⟨some 0, some 0, some 100⟩⟩ := by
  decide!

/-- Claim C4. For every string `s`, `encodeUrl s` is the concatenation over
the characters `c` of `s`, in order, of `"%20"` for a space, `"%27"` for a
single quote and `c` itself otherwise; the output contains no space and no
single quote; and `O'Brien's sensor` becomes `O%27Brien%27s%20sensor`. -/
theorem encodeUrl_spec (s : String) :
    (encodeUrl s = ⟨s.data.flatMap fun c => (encodeChar c).data⟩) ∧
      ' ' ∉ (encodeUrl s).data ∧ Char.ofNat 39 ∉ (encodeUrl s).data ∧
      encodeUrl "O'Brien's sensor" = "O%27Brien%27s%20sensor" := by
  refine ⟨String.ext (encodeUrl_data s), ?_, ?_, by decide⟩
  · intro h
    rw [encodeUrl_data, List.mem_flatMap] at h
    obtain ⟨c, _, hc⟩ := h
    exact (encodeChar_clean c _ hc).1 rfl
  · intro h
    rw [encodeUrl_data, List.mem_flatMap] at h
    obtain ⟨c, _, hc⟩ := h
    exact (encodeChar_clean c _ hc).2 rfl

/-- Claim C5. For a request whose target time parses and whose filtered fetch
succeeds with `obs`: when `obs` has two or more observations `createPredict`
issues no further request and hands `obs` itself to the rate computation;
when `obs` has fewer than two, it calls `getObservations` on the unfiltered
`$top=2` query with an empty accumulator, and the result of that call alone
(not `obs`) is what is handed on or returned. -/
theorem createPredict_fallback_iff (lib : Lib) (net : Net) (clock : Clock) (fuel : Nat)
    (host datastream predictTime span : String) (t : Time) (reqs : List String)
    (obs : List Observation)
    (hpt : lib.parseTime predictTime = some t)
    (hfetch : getObservations lib net fuel 0 (filteredUrl lib clock host datastream span) [] =
      some ⟨reqs, .ok obs⟩) :
    (2 ≤ obs.length →
      createPredict lib net clock fuel host datastream predictTime span =
        some ⟨reqs, extrapolate lib clock t obs⟩) ∧
    (obs.length < 2 →
      createPredict lib net clock fuel host datastream predictTime span =
        (getObservations lib net fuel reqs.length (fallbackUrl host datastream) []).map
          fun r2 =>
          ⟨reqs ++ r2.requests,
            match r2.result with
            | .ok obs2 => extrapolate lib clock t obs2
            | .error err => .error err
            | .panic msg => .panic msg⟩) := by
  constructor
  · intro h
    have hlt : ¬ obs.length < 2 := by omega
    simp [createPredict, fetchWindow, hpt, hfetch, hlt]
  · intro h
    simp only [createPredict, fetchWindow, hpt, hfetch, h, if_true]
    cases hr : getObservations lib net fuel reqs.length (fallbackUrl host datastream) [] with
    | none => rfl
    | some r2 =>
      obtain ⟨rq, res⟩ := r2
      cases res <;> rfl

/-- Claim C5 on a run where the filtered fetch returns one observation: the
fallback query is issued and its two observations replace the one. -/
theorem createPredict_fallback_example :
    createPredict refLib netFallback demoClock 1 demoHost "1" "2017-01-01T12:20:00.000Z" "60" =
      some ⟨[demoFilteredRequest, demoFallbackRequest], .ok ⟨some (1 / 2), some 0, some 110⟩⟩ :=
  ((createPredict_fallback_iff refLib netFallback demoClock 1 demoHost "1"
    "2017-01-01T12:20:00.000Z" "60" 1483273200000000000 [demoFilteredRequest] [obsA]
    (by decide!) (by decide!)).2 (by decide)).trans (by decide!)

/-- Claim C6, as stated, fails: with the fetched results `abc` and `90` no
error is returned; `abc` counts as 0, giving rate -9/2 and prediction -90. -/
theorem createPredict_unparsed_example :
    refParseFloat obsBad.Result = .errSyntax ∧
      createPredict refLib netBad demoClock 1 demoHost "1" "2017-01-01T12:20:00.000Z" "60" =
        some ⟨[demoFilteredRequest], .ok ⟨some (-9 / 2), some 0, some (-90)⟩⟩ := by
  decide!

/-- Claim C6, amended. For every non-empty observation sequence handed to the
rate computation, whatever its results parse to, `createPredict` returns a
`PredictionResponse` and no error. A result that is a syntax error for
`ParseFloat` counts as 0: the response is the one obtained when each such
result is replaced by a text `z` that parses to 0. No sample is skipped: the
rate is the sum of the rates of all adjacent pairs, the synthetic observation
included, divided by the number of fetched observations. -/
theorem createPredict_unparsed_is_zero (lib : Lib) (net : Net) (clock : Clock) (fuel : Nat)
    (host datastream predictTime span z : String) (t : Time) (reqs : List String)
    (o : Observation) (rest : List Observation)
    (hpt : lib.parseTime predictTime = some t)
    (hfetch : fetchWindow lib net clock fuel host datastream span =
      some ⟨reqs, .ok (o :: rest)⟩)
    (hz : lib.parseFloat z = .ok (some 0)) :
    ∃ pr : PredictionResponse,
      createPredict lib net clock fuel host datastream predictTime span = some ⟨reqs, .ok pr⟩ ∧
      extrapolate lib clock t ((o :: rest).map (zeroUnparsed lib z)) = .ok pr ∧
      pr.Rate = fdiv (fsum (pairRates lib (obNow lib clock o :: o :: rest)))
        (((o :: rest).length : Nat) : ℚ) := by
  rw [createPredict_of_fetch hpt hfetch, extrapolate_cons]
  refine ⟨_, rfl, ?_, ?_⟩
  · rw [List.map_cons, extrapolate_cons,
      pairRates_obNow_map lib clock (zeroUnparsed lib z) (zeroUnparsed_value lib z hz)
        (zeroUnparsed_time lib z) o rest,
      zeroUnparsed_value lib z hz, List.length_map]
  · simp

/-- The amended claim C6 on the example: the run with `abc` returns the
response of the run with `0` in its place. -/
theorem createPredict_unparsed_is_zero_example :
    ∃ pr : PredictionResponse,
      createPredict refLib netBad demoClock 1 demoHost "1" "2017-01-01T12:20:00.000Z" "60" =
        some ⟨[demoFilteredRequest], .ok pr⟩ ∧
      extrapolate refLib demoClock 1483273200000000000
        ([obsBad, obsB].map (zeroUnparsed refLib "0")) = .ok pr ∧
      pr.Rate = fdiv (fsum (pairRates refLib (obNow refLib demoClock obsBad :: [obsBad, obsB])))
        (([obsBad, obsB].length : Nat) : ℚ) :=
  createPredict_unparsed_is_zero refLib netBad demoClock 1 demoHost "1"
    "2017-01-01T12:20:00.000Z" "60" "0" 1483273200000000000 [demoFilteredRequest] obsBad [obsB]
    (by decide!) (by decide!) (by decide!)

/-- Claim C7, as stated, fails: a page answered with the non-success status
500 is not an error for `getObservations`; the fetch succeeds and returns the
observations of the earlier page. -/
theorem getObservations_ignores_status :
    netStatus 1 "http://gost.example/p2" =
        .response 500 (.json { Count := 0, NextLink := "", Observations := [] }) ∧
      getObservations refLib netStatus 2 0 "http://gost.example/p1" [] =
        some ⟨["http://gost.example/p1", "http://gost.example/p2"],
          .ok [obsN "1", obsN "2"]⟩ := by
  decide!

/-- Claim C7, amended. When some page reached by `getObservations` is a
transport failure or has a body that does not decode as JSON, whatever pages
were fetched before it and whatever observations were accumulated,
`getObservations` returns that error and no observations. The status code of
a response is not looked at. -/
theorem getObservations_fails_whole (lib : Lib) (net : Net) (err : String)
    (pages : List SensorThingsResponseObservations) (sent : Nat) (url : String) (fuel : Nat)
    (observations : List Observation)
    (hfail : FailsAfter lib net err sent url pages) (hfuel : pages.length < fuel) :
    getObservations lib net fuel sent url observations =
      some ⟨chainRequests url pages, .error err⟩ :=
  getObservations_fails_acc lib net err pages sent url fuel observations hfail hfuel

/-- The amended claim C7 on a chain whose second request fails: the two
observations of the first page are not returned. -/
theorem getObservations_fails_whole_example :
    getObservations refLib netBroken 2 0 "http://gost.example/p1" [] =
      some ⟨["http://gost.example/p1", "http://gost.example/p2"], .error "connection reset"⟩ :=
  getObservations_fails_whole refLib netBroken "connection reset"
    [{ Count := 0, NextLink := "http://gost.example/p2", Observations := [obsN "1", obsN "2"] }]
    0 "http://gost.example/p1" 2 []
    ⟨by decide!, by decide!, by decide!, by decide!, by decide!⟩ (by decide)

/-- Claim C8. For every `predictTime` that does not parse under the layout,
and every host, datastream and span, `createPredict` returns the error
`Unable to parse predictTime: ` followed by the literal `predictTime`, no
`PredictionResponse`, and issues no request: `getObservations` is not
called. -/
theorem createPredict_bad_time (lib : Lib) (net : Net) (clock : Clock) (fuel : Nat)
    (host datastream predictTime span : String)
    (hpt : lib.parseTime predictTime = none) :
    createPredict lib net clock fuel host datastream predictTime span =
      some ⟨[], .error ("Unable to parse predictTime: " ++ predictTime)⟩ := by
  simp [createPredict, hpt]

/-- Claim C8 on `not-a-date`, with no fuel for any fetch. -/
theorem createPredict_bad_time_example :
    createPredict refLib netTwo demoClock 0 demoHost "1" "not-a-date" "60" =
      some ⟨[], .error "Unable to parse predictTime: not-a-date"⟩ :=
  createPredict_bad_time refLib netTwo demoClock 0 demoHost "1" "not-a-date" "60" (by decide!)

/-- Claim C9, as stated, fails: for the target time 9999-12-31T23:59:59.999Z
the difference to the clock reading does not fit a `Duration`, `Time.Sub`
returns the largest duration, and the prediction is
`100 + (9223372036854775807 / 6e10) * (1 / 2)`, not last known value plus the
minutes from now to the target time times the rate. -/
theorem createPredict_far_target :
    refParseTime "9999-12-31T23:59:59.999Z" = some 253402300799999000000 ∧
      createPredict refLib netLate lateClock 1 demoHost "1" "9999-12-31T23:59:59.999Z" "60" =
        some ⟨[lateFilteredRequest], .ok ⟨some (1 / 2), some 0,
          some (100 + 9223372036854775807 / 60000000000 * (1 / 2))⟩⟩ ∧
      (100 + 9223372036854775807 / 60000000000 * (1 / 2) : ℚ) ≠
        100 + ((253402300799999000000 - lateClock.now3 : Int) : ℚ) / 60000000000 * (1 / 2) := by
  decide!

/-- Claim C9, amended. For every run of `createPredict` that gets a non-empty
observation sequence from the fetch (every successful run is one, by
`createPredict_ok_inv`), the run succeeds with
`Prediction = lastKnownValue + minutesAhead * Rate`, where `lastKnownValue` is
the value of the first fetched observation. With times in nanoseconds,
`minutesAhead` is `(targetTime - now) / 6e10` for the last clock reading `now`
(possibly negative) when `targetTime - now` fits a 64-bit `Duration`, and
`9223372036854775807 / 6e10` or `-9223372036854775808 / 6e10` when it lies above
or below that range. The rate does not depend on the target time, so for
finite values the deviation `Prediction - lastKnownValue` is linear in
`minutesAhead`: a horizon of 0 gives `Prediction = lastKnownValue`, and a
second run on the same observations with twice the horizon has twice the
deviation. -/
theorem createPredict_linear_in_horizon (lib : Lib) (net : Net) (clock : Clock) (fuel : Nat)
    (host datastream predictTime predictTime2 span : String) (t t2 now3 : Time)
    (reqs : List String) (o : Observation) (rest : List Observation)
    (hpt : lib.parseTime predictTime = some t)
    (hpt2 : lib.parseTime predictTime2 = some t2)
    (hfetch : fetchWindow lib net clock fuel host datastream span =
      some ⟨reqs, .ok (o :: rest)⟩) :
    ∃ pr pr2 : PredictionResponse,
      createPredict lib net clock fuel host datastream predictTime span =
        some ⟨reqs, .ok pr⟩ ∧
      createPredict lib net { clock with now3 := now3 } fuel host datastream predictTime2 span =
        some ⟨reqs, .ok pr2⟩ ∧
      pr.Prediction = fadd (resultValue lib o) (fmul (minutesAhead clock t) pr.Rate) ∧
      (-9223372036854775808 ≤ t - clock.now3 → t - clock.now3 ≤ 9223372036854775807 →
        minutesAhead clock t = ((t - clock.now3 : Int) : ℚ) / 60000000000) ∧
      (9223372036854775807 < t - clock.now3 →
        minutesAhead clock t = (9223372036854775807 : ℚ) / 60000000000) ∧
      (t - clock.now3 < -9223372036854775808 →
        minutesAhead clock t = (-9223372036854775808 : ℚ) / 60000000000) ∧
      pr2.Rate = pr.Rate ∧
      ∀ v r : ℚ, resultValue lib o = some v → pr.Rate = some r →
        pr.Prediction = some (v + minutesAhead clock t * r) ∧
        (minutesAhead clock t = 0 → pr.Prediction = some v) ∧
        (minutesAhead { clock with now3 := now3 } t2 = 2 * minutesAhead clock t →
          ∃ p p2 : ℚ, pr.Prediction = some p ∧ pr2.Prediction = some p2 ∧
            p2 - v = 2 * (p - v)) := by
  have hfetch2 : fetchWindow lib net { clock with now3 := now3 } fuel host datastream span =
      some ⟨reqs, .ok (o :: rest)⟩ := hfetch
  have hm := minutesAhead_cases clock t
  rw [createPredict_of_fetch hpt hfetch, createPredict_of_fetch hpt2 hfetch2,
    extrapolate_cons, extrapolate_cons]
  refine ⟨_, _, rfl, rfl, rfl, hm.1, hm.2.1, hm.2.2, rfl, ?_⟩
  intro v r hv hr
  have hr2 : fdiv (fsum (pairRates lib (obNow lib { clock with now3 := now3 } o :: o :: rest)))
      ((rest.length + 1 : Nat) : ℚ) = some r := hr
  simp only [] at hr
  simp only [hv, hr, hr2, fadd, fmul]
  refine ⟨trivial, ?_, ?_⟩
  · intro h0
    simp [h0]
  · intro h2
    refine ⟨_, _, rfl, rfl, ?_⟩
    rw [h2]
    ring

/-- The amended claim C9 on observations of values 100 and 90 ten minutes
apart: the horizon to a target 20 minutes after the clock reading is 20, and
horizons of 20 and 40 minutes give predictions 110 and 120, deviations 10 and
20 from the last known value 100. -/
theorem createPredict_linear_in_horizon_example :
    ∃ pr pr2 : PredictionResponse,
      createPredict refLib netLate lateClock 1 demoHost "1" "2017-01-01T12:21:00.123Z" "60" =
        some ⟨[lateFilteredRequest], .ok pr⟩ ∧
      createPredict refLib netLate { lateClock with now3 := 1483272060123000000 } 1 demoHost "1"
        "2017-01-01T12:41:00.123Z" "60" = some ⟨[lateFilteredRequest], .ok pr2⟩ ∧
      minutesAhead lateClock 1483273260123000000 = 20 ∧
      pr.Prediction = some 110 ∧ pr2.Prediction = some 120 := by
  obtain ⟨pr, pr2, h1, h2, hpred, hm, _, _, hrate, h⟩ :=
    createPredict_linear_in_horizon refLib netLate lateClock 1 demoHost "1"
      "2017-01-01T12:21:00.123Z" "2017-01-01T12:41:00.123Z" "60" 1483273260123000000
      1483274460123000000 1483272060123000000 [lateFilteredRequest] obsC [obsD]
      (by decide!) (by decide!) (by decide!)
  have hm20 : minutesAhead lateClock 1483273260123000000 = 20 :=
    (hm (by decide!) (by decide!)).trans (by decide!)
  have hm40 : minutesAhead { lateClock with now3 := 1483272060123000000 } 1483274460123000000 =
      2 * minutesAhead lateClock 1483273260123000000 := by
    rw [hm20]
    decide!
  have e : createPredict refLib netLate lateClock 1 demoHost "1" "2017-01-01T12:21:00.123Z"
      "60" = some ⟨[lateFilteredRequest], .ok ⟨some (1 / 2), some 0, some 110⟩⟩ := by decide!
  have h1e := h1
  rw [e] at h1e
  simp only [Option.some.injEq, Ran.mk.injEq, Outcome.ok.injEq, true_and] at h1e
  have hr : pr.Rate = some (1 / 2) := by rw [← h1e]
  have hv : resultValue refLib obsC = some 100 := by decide!
  obtain ⟨hp, _, hdouble⟩ := h 100 (1 / 2) hv hr
  obtain ⟨p, p2, hp1, hp2, hdev⟩ := hdouble hm40
  have hp110 : pr.Prediction = some 110 := by
    rw [hp, hm20]
    norm_num
  refine ⟨pr, pr2, h1, h2, hm20, hp110, ?_⟩
  rw [hp110] at hp1
  have hpv : p = 110 := by
    simp only [Option.some.injEq] at hp1
    exact hp1.symm
  rw [hp2]
  congr 1
  rw [hpv] at hdev
  linarith

/-- Claim C10. For every fetched sequence of `k` observations whose first
value is a finite number, whenever the time delta between the synthetic
observation and the first fetched one is non-zero, that interval contributes
a rate of exactly 0, and the returned rate is the sum of the `k - 1` rates
between adjacent fetched observations divided by `k`, the number of fetched
observations. -/
theorem createPredict_rate_divided_by_count (lib : Lib) (net : Net) (clock : Clock) (fuel : Nat)
    (host datastream predictTime span : String) (t : Time) (reqs : List String)
    (o : Observation) (rest : List Observation) (v : ℚ)
    (hpt : lib.parseTime predictTime = some t)
    (hfetch : fetchWindow lib net clock fuel host datastream span =
      some ⟨reqs, .ok (o :: rest)⟩)
    (hv : resultValue lib o = some v)
    (hdelta : timeSub (phenomenonTime lib (obNow lib clock o)) (phenomenonTime lib o) ≠ 0) :
    pairRate lib (obNow lib clock o) o = some 0 ∧
      (pairRates lib (o :: rest)).length = (o :: rest).length - 1 ∧
      ∃ pr : PredictionResponse,
        createPredict lib net clock fuel host datastream predictTime span =
          some ⟨reqs, .ok pr⟩ ∧
        pr.Rate = fdiv (fsum (pairRates lib (o :: rest))) (((o :: rest).length : Nat) : ℚ) := by
  have h0 := pairRate_obNow lib clock o v hv hdelta
  refine ⟨h0, pairRates_length lib (o :: rest), ?_⟩
  rw [createPredict_of_fetch hpt hfetch, extrapolate_cons]
  refine ⟨_, rfl, ?_⟩
  have hp : pairRates lib (obNow lib clock o :: o :: rest) =
      some 0 :: pairRates lib (o :: rest) := by
    rw [pairRates, h0]
  simp only [hp, fsum_cons_zero, List.length_cons]

/-- Claim C10 on the example: two fetched observations, one real interval of
rate 1, returned rate 1/2. -/
theorem createPredict_rate_divided_by_count_example :
    pairRate refLib (obNow refLib demoClock obsA) obsA = some 0 ∧
      fsum (pairRates refLib [obsA, obsB]) = some 1 ∧
      createPredict refLib netTwo demoClock 1 demoHost "1" "2017-01-01T12:20:00.000Z" "60" =
        some ⟨[demoFilteredRequest], .ok ⟨some (1 / 2), some 0, some 110⟩⟩ :=
  ⟨(createPredict_rate_divided_by_count refLib netTwo demoClock 1 demoHost "1"
      "2017-01-01T12:20:00.000Z" "60" 1483273200000000000 [demoFilteredRequest] obsA [obsB] 100
      (by decide!) (by decide!) (by decide!) (by decide!)).1,
    by decide!, by decide!⟩

end GostPredict
